import Mathlib

/-!
Verification of the resilient Squarespace API client and the transaction
summary tool of the squarespace-mcp repository.

The TypeScript client (class SquarespaceClient) is shallowly embedded as a
state-passing model.  Network nondeterminism is captured by a `World` oracle
giving the outcome of the k-th dispatch of the request under consideration
and the outcome of the k-th call to the OAuth token endpoint.  Observable
side effects (dispatches with their bearer token, refresh invocations,
OAuth endpoint contacts, backoff waits) are recorded in an event trace.
Potentially unbounded recursion (the 401 refresh-retry cycle) is modelled
with fuel: the run functions return `none` when the fuel is exhausted.
-/

namespace SquarespaceMCP

/-- Method and url of a request descriptor (the fields of the axios request
config that matter to the model). -/
structure RequestConfig where
  method : String
  url : String
deriving Repr, DecidableEq

/-- Field-level sub-error carried by an error response body. -/
structure FieldError where
  field : Option String
  message : String
deriving Repr, DecidableEq

/-- An HTTP response as the client sees it: status, the error-related fields
of the parsed body (`data.type`, `data.message`, `data.errors`), and the
payload returned on success. -/
structure HttpResponse where
  status : Nat
  dataType : Option String
  dataMessage : Option String
  dataErrors : Option (List FieldError)
  body : String
deriving Repr, DecidableEq

/-- Mirror of the exported SquarespaceAPIError class: status, provider error
type string, message, optional field errors.  The TypeScript field named
`type` is rendered `errType`. -/
structure SquarespaceAPIError where
  status : Nat
  errType : String
  message : String
  errors : Option (List FieldError)
deriving Repr, DecidableEq

/-- Universe of values a rejected promise can carry inside the client:
either a raw axios-style error (with an optional attached response and a
message, which also covers plain thrown Error objects, whose `response`
property is absent) or an already-normalized SquarespaceAPIError. -/
inductive ClientError where
  | raw (response : Option HttpResponse) (message : String)
  | api (e : SquarespaceAPIError)
deriving Repr, DecidableEq

/-- Mirror of the OAuthTokenResponse interface of src/types/index.ts. -/
structure OAuthTokenResponse where
  token_type : String
  access_token : String
  access_token_expires_at : String
  refresh_token : Option String
  refresh_token_expires_at : Option String
deriving Repr, DecidableEq

/-- Mirror of the SquarespaceConfig interface of src/types/index.ts:
accessToken is the only required field. -/
structure SquarespaceConfig where
  accessToken : String
  refreshToken : Option String := none
  clientId : Option String := none
  clientSecret : Option String := none
  baseUrl : Option String := none
  timeout : Option Nat := none
  retryAttempts : Option Nat := none
deriving Repr, DecidableEq

/-- Mutable credential and policy state of a SquarespaceClient instance.
Timestamps are integer milliseconds. -/
structure SquarespaceClient where
  accessToken : String
  refreshToken : Option String
  clientId : Option String
  clientSecret : Option String
  retryAttempts : Nat
  tokenExpiresAt : Option Int
deriving Repr, DecidableEq

/-- JavaScript truthiness of an optional string: undefined and the empty
string are falsy. -/
def truthy : Option String → Bool
  | some s => s ≠ ""
  | none => false

/-- JavaScript `a || b` on an optional string against a default, treating
the empty string as falsy. -/
def orFalsy (o : Option String) (d : String) : String :=
  match o with
  | some s => if s = "" then d else s
  | none => d

/-- The SquarespaceClient constructor: copies the credentials, defaults
retryAttempts to 3 via the nullish-coalescing operator, and leaves
tokenExpiresAt unset (the configuration has no expiry field and the
constructor never initializes one). -/
def SquarespaceClient.construct (config : SquarespaceConfig) : SquarespaceClient :=
  { accessToken := config.accessToken
    refreshToken := config.refreshToken
    clientId := config.clientId
    clientSecret := config.clientSecret
    retryAttempts := config.retryAttempts.getD 3
    tokenExpiresAt := none }

/-- Outcome of dispatching an HTTP request once: an HTTP response of any
status, or a transport failure that produced no response. -/
inductive DispatchResult where
  | resp (r : HttpResponse)
  | transport (message : String)
deriving Repr, DecidableEq

/-- Network oracle: `dispatch k` is the outcome of the k-th dispatch of the
request under consideration, `refreshResult k` the outcome of the k-th call
to the OAuth token endpoint (`none` meaning the call failed). -/
structure World where
  dispatch : Nat → DispatchResult
  refreshResult : Nat → Option OAuthTokenResponse

/-- Observable events of a run, in chronological order. -/
inductive Event where
  | refreshInvoked
  | oauthPost
  | dispatched (req : RequestConfig) (bearer : String)
  | waited (ms : Nat)
deriving Repr, DecidableEq

/-- Chronological event trace of a run. -/
abbrev Trace := List Event

/-- Number of dispatches recorded in a trace. -/
def dispatchCount (tr : Trace) : Nat :=
  tr.countP fun e => match e with | Event.dispatched _ _ => true | _ => false

/-- Number of OAuth token endpoint contacts recorded in a trace. -/
def oauthCount (tr : Trace) : Nat :=
  tr.countP fun e => match e with | Event.oauthPost => true | _ => false

/-- The five-minute proactive refresh safety margin, in milliseconds. -/
def fiveMinutesMs : Int := 5 * 60 * 1000

/-- The fixed thirty-minute token lifetime assumed after a refresh, in
milliseconds. -/
def thirtyMinutesMs : Int := 30 * 60 * 1000

/-- Mirror of SquarespaceClient.shouldRefreshToken: false when no expiry is
stored or no refresh token is configured, otherwise true when now is within
five minutes of the stored expiry (or past it). -/
def shouldRefreshToken (c : SquarespaceClient) (now : Int) : Bool :=
  match c.tokenExpiresAt, c.refreshToken with
  | some expiresAt, some rt =>
      if rt = "" then false else decide (now ≥ expiresAt - fiveMinutesMs)
  | _, _ => false

/-- Mirror of SquarespaceClient.handleError: normalizes a raw error (optional
response plus message) into a SquarespaceAPIError, synthesizing status 500
and type UNKNOWN_ERROR when no response or no body fields are present. -/
def handleError (response : Option HttpResponse) (errMessage : String) : SquarespaceAPIError :=
  { status := match response with
      | some r => if r.status = 0 then 500 else r.status
      | none => 500
    errType := orFalsy (response.bind (·.dataType)) "UNKNOWN_ERROR"
    message := orFalsy (response.bind (·.dataMessage))
      (orFalsy (some errMessage) "An unknown error occurred")
    errors := response.bind (·.dataErrors) }

/-- Mirror of SquarespaceClient.refreshAccessToken.  Fails immediately with a
configuration error when refresh token, client id or client secret is falsy,
without contacting the OAuth endpoint.  Otherwise posts to the endpoint; on
success replaces the access token, replaces the refresh token only when the
response carries a truthy one, and stores expiry now plus thirty minutes; on
failure raises the opaque refresh failure message. -/
def refreshAccessToken (w : World) (now : Int) (c : SquarespaceClient) (tr : Trace) :
    Except String SquarespaceClient × Trace :=
  let tr1 := tr ++ [Event.refreshInvoked]
  if truthy c.refreshToken && truthy c.clientId && truthy c.clientSecret then
    match w.refreshResult (oauthCount tr) with
    | some resp =>
        (Except.ok { c with
            accessToken := resp.access_token
            refreshToken := if truthy resp.refresh_token then resp.refresh_token
                            else c.refreshToken
            tokenExpiresAt := some (now + thirtyMinutesMs) },
         tr1 ++ [Event.oauthPost])
    | none => (Except.error "Failed to refresh access token", tr1 ++ [Event.oauthPost])
  else
    (Except.error "Missing refresh token or OAuth credentials", tr1)

/-- One request through the axios instance, interceptors included: the
request interceptor performs the proactive refresh check and attaches the
bearer header; the response interceptor converts every rejection into a
normalized SquarespaceAPIError, except that a 401 with a truthy refresh
token first refreshes and then re-enters the full chain (source lines
847-866).  Fuel bounds the 401 recursion; `none` means it was exhausted. -/
def clientRequest (w : World) (now : Int) :
    Nat → RequestConfig → SquarespaceClient → Trace →
    Option (Except ClientError HttpResponse × SquarespaceClient × Trace)
  | 0, _, _, _ => none
  | fuel + 1, req, c, tr =>
    let step1 : Except ClientError SquarespaceClient × Trace :=
      if shouldRefreshToken c now then
        match refreshAccessToken w now c tr with
        | (Except.ok c2, tr2) => (Except.ok c2, tr2)
        | (Except.error msg, tr2) =>
            (Except.error (ClientError.api (handleError none msg)), tr2)
      else (Except.ok c, tr)
    match step1 with
    | (Except.error e, tr2) => some (Except.error e, c, tr2)
    | (Except.ok c2, tr2) =>
      let tr3 := tr2 ++ [Event.dispatched req c2.accessToken]
      match w.dispatch (dispatchCount tr2) with
      | DispatchResult.transport msg =>
          some (Except.error (ClientError.api (handleError none msg)), c2, tr3)
      | DispatchResult.resp r =>
        if 200 ≤ r.status ∧ r.status < 300 then
          some (Except.ok r, c2, tr3)
        else if r.status = 401 ∧ truthy c2.refreshToken then
          match refreshAccessToken w now c2 tr3 with
          | (Except.ok c3, tr4) => clientRequest w now fuel req c3 tr4
          | (Except.error msg, tr4) =>
              some (Except.error (ClientError.api (handleError none msg)), c2, tr4)
        else
          some (Except.error (ClientError.api (handleError (some r)
            ("Request failed with status code " ++ toString r.status))), c2, tr3)

/-- The response property an error object exposes: present only on raw
axios errors; a SquarespaceAPIError has no such property. -/
def errResponse : ClientError → Option HttpResponse
  | ClientError.raw r _ => r
  | ClientError.api _ => none

/-- Mirror of SquarespaceClient.makeRequest: dispatch through the intercepted
axios instance, and on an error whose response status is 429 or at least 500
wait two-to-the-attempt seconds and retry while the attempt counter is below
retryAttempts (source lines 938-962).  The status test reads the `response`
property of the caught error, exactly as the source casts the caught value
to AxiosError. -/
def makeRequest (w : World) (now : Int) :
    Nat → RequestConfig → Nat → SquarespaceClient → Trace →
    Option (Except ClientError String × SquarespaceClient × Trace)
  | 0, _, _, _, _ => none
  | fuel + 1, req, attempt, c, tr =>
    match clientRequest w now (fuel + 1) req c tr with
    | none => none
    | some (Except.ok r, c2, tr2) => some (Except.ok r.body, c2, tr2)
    | some (Except.error e, c2, tr2) =>
      let retryable : Bool := match errResponse e with
        | some r => r.status == 429 || (r.status != 0 && decide (500 ≤ r.status))
        | none => false
      if retryable && decide (attempt < c2.retryAttempts) then
        makeRequest w now fuel req (attempt + 1) c2
          (tr2 ++ [Event.waited (2 ^ attempt * 1000)])
      else
        some (Except.error e, c2, tr2)

/-- The public execute operation: makeRequest starting at attempt 0 with an
empty trace. -/
def execute (w : World) (now : Int) (fuel : Nat) (req : RequestConfig)
    (c : SquarespaceClient) :
    Option (Except ClientError String × SquarespaceClient × Trace) :=
  makeRequest w now fuel req 0 c []

/-- The request descriptor of the products listing call. -/
def productsRequest : RequestConfig :=
  { method := "GET", url := "/commerce/products" }

/-- Process environment visible to the server bootstrap. -/
structure Env where
  SQUARESPACE_ACCESS_TOKEN : Option String
  SQUARESPACE_REFRESH_TOKEN : Option String
  SQUARESPACE_CLIENT_ID : Option String
  SQUARESPACE_CLIENT_SECRET : Option String
deriving Repr, DecidableEq

/-- Server bootstrap (src/index.ts lines 28-46): exits with a configuration
error when the access token environment variable is falsy, otherwise
constructs the client with timeout 30000 and retryAttempts 3. -/
def serverBootstrap (env : Env) : Except String SquarespaceClient :=
  if truthy env.SQUARESPACE_ACCESS_TOKEN then
    Except.ok (SquarespaceClient.construct
      { accessToken := env.SQUARESPACE_ACCESS_TOKEN.getD ""
        refreshToken := env.SQUARESPACE_REFRESH_TOKEN
        clientId := env.SQUARESPACE_CLIENT_ID
        clientSecret := env.SQUARESPACE_CLIENT_SECRET
        timeout := some 30000
        retryAttempts := some 3 })
  else
    Except.error "Error: SQUARESPACE_ACCESS_TOKEN environment variable is required"

/-- Monetary amount; the decimal string of the source is modelled by its
parsed rational value. -/
structure Money where
  value : ℚ
  currency : String
deriving Repr, DecidableEq

/-- A financial transaction of an order.  The TypeScript field named `type`
is rendered `txnType`. -/
structure Transaction where
  id : String
  txnType : String
  amount : Money
deriving Repr, DecidableEq

/-- Output shape of the squarespace_get_transaction_summary tool. -/
structure TransactionSummary where
  totalPaid : Money
  totalRefunded : Money
  netAmount : Money
  transactionCount : Nat
deriving Repr, DecidableEq

/-- Body of the forEach loop of the transaction summary handler: adds the
amount to the paid accumulator on type CAPTURE, to the refunded accumulator
on type REFUND, and ignores every other type. -/
def summarizeStep (acc : ℚ × ℚ) (txn : Transaction) : ℚ × ℚ :=
  if txn.txnType = "CAPTURE" then (acc.1 + txn.amount.value, acc.2)
  else if txn.txnType = "REFUND" then (acc.1, acc.2 + txn.amount.value)
  else acc

/-- Mirror of the squarespace_get_transaction_summary handler (source lines
88-119): folds the transactions, reports net as paid minus refunded, takes
the currency of the first transaction with USD as the falsy default, and
counts all transactions. -/
def getTransactionSummary (transactions : List Transaction) : TransactionSummary :=
  let currency := orFalsy (transactions.head?.map fun t => t.amount.currency) "USD"
  let totals := transactions.foldl summarizeStep (0, 0)
  { totalPaid := { value := totals.1, currency := currency }
    totalRefunded := { value := totals.2, currency := currency }
    netAmount := { value := totals.1 - totals.2, currency := currency }
    transactionCount := transactions.length }

/-- A 429 rate-limit response with an empty body. -/
def resp429 : HttpResponse := { status := 429, dataType := none, dataMessage := none, dataErrors := none, body := "" }

/-- A 401 unauthorized response with an empty body. -/
def resp401 : HttpResponse := { status := 401, dataType := none, dataMessage := none, dataErrors := none, body := "" }

/-- A 200 success response with payload okbody. -/
def resp200 : HttpResponse := { status := 200, dataType := none, dataMessage := none, dataErrors := none, body := "okbody" }

/-- A successful token endpoint response carrying access token B and no
rotated refresh token. -/
def refreshedTokenResp : OAuthTokenResponse :=
  { token_type := "bearer", access_token := "B",
    access_token_expires_at := "2026-01-01T00:00:00Z",
    refresh_token := none, refresh_token_expires_at := none }

/-- World in which every dispatch is rate limited and the token endpoint is
never reached. -/
def rateLimitedWorld : World :=
  { dispatch := fun _ => DispatchResult.resp resp429, refreshResult := fun _ => none }

/-- World returning 401 to the first two dispatches and 200 afterwards, with
a token endpoint that always succeeds. -/
def twice401World : World :=
  { dispatch := fun n => if n < 2 then DispatchResult.resp resp401 else DispatchResult.resp resp200
    refreshResult := fun _ => some refreshedTokenResp }

/-- World returning 401 to every dispatch, with a token endpoint that always
succeeds. -/
def always401World : World :=
  { dispatch := fun _ => DispatchResult.resp resp401
    refreshResult := fun _ => some refreshedTokenResp }

/-- World in which every dispatch succeeds. -/
def okWorld : World :=
  { dispatch := fun _ => DispatchResult.resp resp200
    refreshResult := fun _ => some refreshedTokenResp }

/-- Client constructed with only an access token and the default retry cap
of three attempts. -/
def tokenOnlyClient : SquarespaceClient :=
  SquarespaceClient.construct { accessToken := "A", retryAttempts := some 3 }

/-- Client constructed with access token A1, refresh token R1 and full OAuth
credentials, as in the spec scenario. -/
def fullCredsClient : SquarespaceClient :=
  SquarespaceClient.construct
    { accessToken := "A1", refreshToken := some "R1", clientId := some "CID",
      clientSecret := some "SEC" }

/-- The state fullCredsClient reaches after one refresh against
refreshedTokenResp at time zero; each further 401 refresh cycle maps this
state to itself. -/
def loopClient : SquarespaceClient :=
  { accessToken := "B", refreshToken := some "R1", clientId := some "CID",
    clientSecret := some "SEC", retryAttempts := 3, tokenExpiresAt := some 1800000 }

/-- Refresh with all three credentials truthy and a successful token endpoint
response: replaces the access token, rotates the refresh token only when the
response carries a truthy one, stores expiry now plus thirty minutes, and
records one invocation followed by one endpoint contact. -/
theorem refreshAccessToken_ok (w : World) (now : Int) (c : SquarespaceClient)
    (tr : Trace) (resp : OAuthTokenResponse)
    (h1 : truthy c.refreshToken = true) (h2 : truthy c.clientId = true)
    (h3 : truthy c.clientSecret = true)
    (hw : w.refreshResult (oauthCount tr) = some resp) :
    refreshAccessToken w now c tr
      = (Except.ok { c with
            accessToken := resp.access_token
            refreshToken := if truthy resp.refresh_token then resp.refresh_token
                            else c.refreshToken
            tokenExpiresAt := some (now + thirtyMinutesMs) },
         tr ++ [Event.refreshInvoked, Event.oauthPost]) := by
  simp [refreshAccessToken, h1, h2, h3, hw]

/-- Refresh with a falsy refresh token, client id or client secret fails at
once with the configuration error message, records the invocation and no
endpoint contact. -/
theorem refreshAccessToken_missing (w : World) (now : Int) (c : SquarespaceClient)
    (tr : Trace)
    (h : truthy c.refreshToken = false ∨ truthy c.clientId = false
          ∨ truthy c.clientSecret = false) :
    refreshAccessToken w now c tr
      = (Except.error "Missing refresh token or OAuth credentials",
         tr ++ [Event.refreshInvoked]) := by
  rcases h with h | h | h <;> simp [refreshAccessToken, h]

/-- The proactive check is negative whenever the stored expiry is more than
five minutes in the future. -/
theorem shouldRefresh_false_of_far (c : SquarespaceClient) (now t : Int)
    (he : c.tokenExpiresAt = some t) (hlt : now < t - fiveMinutesMs) :
    shouldRefreshToken c now = false := by
  unfold shouldRefreshToken
  rw [he]
  cases hc : c.refreshToken with
  | none => rfl
  | some rt =>
    by_cases hrt : rt = ""
    · simp [hrt]
    · simp only [hrt, if_false]
      simpa using not_le.mpr hlt

/-- The proactive check is positive whenever the stored expiry is within
five minutes of now (or past) and the refresh token is truthy. -/
theorem shouldRefresh_true_of_near (c : SquarespaceClient) (now t : Int)
    (he : c.tokenExpiresAt = some t) (hge : now ≥ t - fiveMinutesMs)
    (hrt : truthy c.refreshToken = true) :
    shouldRefreshToken c now = true := by
  unfold shouldRefreshToken
  rw [he]
  cases hc : c.refreshToken with
  | none => rw [hc] at hrt; exact absurd hrt (by simp [truthy])
  | some rt =>
    have hne : rt ≠ "" := by rw [hc] at hrt; simpa [truthy] using hrt
    simp [hne, hge]

/-- A call made while the proactive check is negative dispatches exactly
once with the current access token and, on a 2xx response, returns the
body with no refresh event at all. -/
theorem execute_skip_refresh_ok (w : World) (now : Int) (fuel : Nat)
    (req : RequestConfig) (c : SquarespaceClient) (r : HttpResponse)
    (hsr : shouldRefreshToken c now = false)
    (hd : w.dispatch 0 = DispatchResult.resp r)
    (hs1 : 200 ≤ r.status) (hs2 : r.status < 300) :
    execute w now (fuel + 1) req c
      = some (Except.ok r.body, c, [Event.dispatched req c.accessToken]) := by
  have hd0 : w.dispatch (dispatchCount ([] : Trace)) = DispatchResult.resp r := hd
  have hcr : clientRequest w now (fuel + 1) req c []
      = some (Except.ok r, c, [Event.dispatched req c.accessToken]) := by
    rw [clientRequest]
    simp only [hsr, Bool.false_eq_true, if_false, hd0, List.nil_append]
    rw [if_pos ⟨hs1, hs2⟩]
  rw [execute, makeRequest, hcr]

/-- A call made while the proactive check is negative, answered with a
non-2xx, non-401 status, dispatches exactly once and surfaces the
normalized error at once with no wait, no retry and no refresh. -/
theorem execute_skip_refresh_err (w : World) (now : Int) (fuel : Nat)
    (req : RequestConfig) (c : SquarespaceClient) (r : HttpResponse)
    (hsr : shouldRefreshToken c now = false)
    (hd : w.dispatch 0 = DispatchResult.resp r)
    (hs1 : 300 ≤ r.status) (h401 : r.status ≠ 401) :
    execute w now (fuel + 1) req c
      = some (Except.error (ClientError.api (handleError (some r)
            ("Request failed with status code " ++ toString r.status))),
          c, [Event.dispatched req c.accessToken]) := by
  have hd0 : w.dispatch (dispatchCount ([] : Trace)) = DispatchResult.resp r := hd
  have hcr : clientRequest w now (fuel + 1) req c []
      = some (Except.error (ClientError.api (handleError (some r)
            ("Request failed with status code " ++ toString r.status))),
          c, [Event.dispatched req c.accessToken]) := by
    rw [clientRequest]
    simp only [hsr, Bool.false_eq_true, if_false, hd0, List.nil_append]
    rw [if_neg (fun h => absurd h.2 (by omega)), if_neg (fun h => h401 h.1)]
  rw [execute, makeRequest, hcr]
  rfl

/-- A call made while the proactive check is positive with full truthy
credentials performs exactly one refresh (one invocation, one endpoint
contact) and then dispatches once with the freshly obtained access
token. -/
theorem execute_proactive_refresh (w : World) (now : Int) (fuel : Nat)
    (req : RequestConfig) (c : SquarespaceClient) (t : Int)
    (resp : OAuthTokenResponse) (r : HttpResponse)
    (he : c.tokenExpiresAt = some t) (hge : now ≥ t - fiveMinutesMs)
    (h1 : truthy c.refreshToken = true) (h2 : truthy c.clientId = true)
    (h3 : truthy c.clientSecret = true)
    (hw : w.refreshResult 0 = some resp)
    (hd : w.dispatch 0 = DispatchResult.resp r)
    (hs1 : 200 ≤ r.status) (hs2 : r.status < 300) :
    execute w now (fuel + 1) req c
      = some (Except.ok r.body,
          { c with accessToken := resp.access_token
                   refreshToken := if truthy resp.refresh_token then resp.refresh_token
                                   else c.refreshToken
                   tokenExpiresAt := some (now + thirtyMinutesMs) },
          [Event.refreshInvoked, Event.oauthPost,
           Event.dispatched req resp.access_token]) := by
  have hsr := shouldRefresh_true_of_near c now t he hge h1
  have hw0 : w.refreshResult (oauthCount ([] : Trace)) = some resp := hw
  have hd0 : w.dispatch
      (dispatchCount ([Event.refreshInvoked, Event.oauthPost] : Trace))
        = DispatchResult.resp r := hd
  have hcr : clientRequest w now (fuel + 1) req c []
      = some (Except.ok r,
          { c with accessToken := resp.access_token
                   refreshToken := if truthy resp.refresh_token then resp.refresh_token
                                   else c.refreshToken
                   tokenExpiresAt := some (now + thirtyMinutesMs) },
          [Event.refreshInvoked, Event.oauthPost,
           Event.dispatched req resp.access_token]) := by
    rw [clientRequest]
    simp only [hsr, if_true,
      refreshAccessToken_ok w now c [] resp h1 h2 h3 hw0,
      List.nil_append, hd0]
    rw [if_pos ⟨hs1, hs2⟩]
    rfl
  rw [execute, makeRequest, hcr]

/-- Every error produced by a run through the intercepted axios instance is
an already-normalized SquarespaceAPIError: each rejection site of the
response interceptor constructs one, and the 401 retry propagates the inner
result unchanged. -/
theorem clientRequest_errors_api : ∀ (fuel : Nat) (w : World) (now : Int)
    (req : RequestConfig) (c : SquarespaceClient) (tr : Trace) (e : ClientError)
    (c2 : SquarespaceClient) (tr2 : Trace),
    clientRequest w now fuel req c tr = some (Except.error e, c2, tr2) →
    ∃ a, e = ClientError.api a := by
  intro fuel
  induction fuel with
  | zero =>
    intro w now req c tr e c2 tr2 h
    exact Option.noConfusion h
  | succ n ih =>
    intro w now req c tr e c2 tr2 h
    simp only [clientRequest] at h
    repeat' split at h
    all_goals
      first
      | exact ih _ _ _ _ _ _ _ _ h
      | (simp at h; exact ⟨_, h.1.symm⟩)
      | (simp at h; done)
      | (rename_i heq
         obtain ⟨rfl, -, -⟩ := h
         repeat' split at heq
         all_goals
           first
           | (simp at heq; exact ⟨_, heq.1.symm⟩)
           | simp at heq)

/-- Every error surfaced by makeRequest is an already-normalized
SquarespaceAPIError. -/
theorem makeRequest_errors_api : ∀ (fuel : Nat) (w : World) (now : Int)
    (req : RequestConfig) (attempt : Nat) (c : SquarespaceClient) (tr : Trace)
    (e : ClientError) (c2 : SquarespaceClient) (tr2 : Trace),
    makeRequest w now fuel req attempt c tr = some (Except.error e, c2, tr2) →
    ∃ a, e = ClientError.api a := by
  intro fuel
  induction fuel with
  | zero =>
    intro w now req attempt c tr e c2 tr2 h
    exact Option.noConfusion h
  | succ n ih =>
    intro w now req attempt c tr e c2 tr2 h
    rw [makeRequest] at h
    cases hX : clientRequest w now (n + 1) req c tr with
    | none => rw [hX] at h; exact Option.noConfusion h
    | some p =>
      obtain ⟨exc, cm, trm⟩ := p
      cases exc with
      | ok r =>
        rw [hX] at h
        simp at h
      | error em =>
        rw [hX] at h
        simp only [] at h
        split at h
        · exact ih _ _ _ _ _ _ _ _ _ h
        · obtain ⟨a, ha⟩ := clientRequest_errors_api (n + 1) w now req c tr em cm trm hX
          simp at h
          exact ⟨a, h.1.symm.trans ha⟩

/-- Folding the summary step over a transaction list adds the sum of CAPTURE
amounts to the first accumulator and the sum of REFUND amounts to the
second. -/
theorem summarize_foldl (txns : List Transaction) : ∀ p r : ℚ,
    txns.foldl summarizeStep (p, r)
      = (p + ((txns.filter fun t => t.txnType == "CAPTURE").map
                fun t => t.amount.value).sum,
         r + ((txns.filter fun t => t.txnType == "REFUND").map
                fun t => t.amount.value).sum) := by
  induction txns with
  | nil => simp
  | cons hd tl ih =>
    intro p r
    simp only [List.foldl_cons, List.filter_cons]
    by_cases h1 : hd.txnType = "CAPTURE"
    · simp [summarizeStep, h1, ih, add_assoc]
    · by_cases h2 : hd.txnType = "REFUND"
      · simp [summarizeStep, h1, h2, ih, add_assoc]
      · simp [summarizeStep, h1, h2, ih]

/-- C10: the transaction summary computes totalPaid as the sum of amounts of
transactions whose type is exactly CAPTURE, totalRefunded as the sum of
amounts of transactions whose type is exactly REFUND, ignores every other
type, reports netAmount as totalPaid minus totalRefunded, and counts all
transactions. -/
theorem transaction_summary_correct (txns : List Transaction) :
    (getTransactionSummary txns).totalPaid.value
        = ((txns.filter fun t => t.txnType == "CAPTURE").map
            fun t => t.amount.value).sum
  ∧ (getTransactionSummary txns).totalRefunded.value
        = ((txns.filter fun t => t.txnType == "REFUND").map
            fun t => t.amount.value).sum
  ∧ (getTransactionSummary txns).netAmount.value
        = (getTransactionSummary txns).totalPaid.value
            - (getTransactionSummary txns).totalRefunded.value
  ∧ (getTransactionSummary txns).transactionCount = txns.length := by
  have h := summarize_foldl txns 0 0
  simp only [zero_add] at h
  refine ⟨?_, ?_, ?_, rfl⟩ <;> simp only [getTransactionSummary, h]

/-- C1: with every dispatch answered 429 and the default cap of three retry
attempts, execute performs exactly one dispatch, no backoff wait and no
retry, and surfaces the normalized 429 error immediately: the response
interceptor has already replaced the axios error by a SquarespaceAPIError,
which has no response property, so the retry test of makeRequest never
fires.  This refutes the claimed retry-with-backoff behavior. -/
theorem retry_logic_dead_on_429 :
    execute rateLimitedWorld 0 10 productsRequest tokenOnlyClient
      = some (Except.error (ClientError.api
          { status := 429, errType := "UNKNOWN_ERROR",
            message := "Request failed with status code 429", errors := none }),
         tokenOnlyClient,
         [Event.dispatched productsRequest "A"]) := by
  rfl

/-- Every refresh-retry cycle against the always-401 world maps the
post-refresh client state back to itself, so a request started in that
state exhausts any amount of fuel. -/
theorem always401_loop : ∀ (n : Nat) (tr : Trace),
    clientRequest always401World 0 n productsRequest loopClient tr = none := by
  intro n
  induction n with
  | zero => intro tr; rfl
  | succ m ih => intro tr; exact ih _

/-- C2: against a server that answers 401 to the first two dispatches and
200 to the third, the client performs two refresh-retry cycles (two
refreshes, three dispatches) and returns success, instead of propagating
the failure of the single permitted retry; and against a server that always
answers 401 the refresh-retry recursion exhausts any amount of fuel, so the
401 escalation path does not terminate. -/
theorem unauthorized_retry_loops :
    (execute twice401World 0 10 productsRequest fullCredsClient
      = some (Except.ok "okbody",
          { accessToken := "B", refreshToken := some "R1", clientId := some "CID",
            clientSecret := some "SEC", retryAttempts := 3,
            tokenExpiresAt := some 1800000 },
          [Event.dispatched productsRequest "A1",
           Event.refreshInvoked, Event.oauthPost,
           Event.dispatched productsRequest "B",
           Event.refreshInvoked, Event.oauthPost,
           Event.dispatched productsRequest "B"]))
  ∧ ∀ fuel, execute always401World 0 fuel productsRequest fullCredsClient = none := by
  constructor
  · rfl
  · intro fuel
    cases fuel with
    | zero => rfl
    | succ n =>
      have h : clientRequest always401World 0 (n + 1) productsRequest fullCredsClient []
          = none :=
        always401_loop n [Event.dispatched productsRequest "A1",
          Event.refreshInvoked, Event.oauthPost]
      rw [execute, makeRequest, h]

/-- C3 counterexample: the configuration interface has no expiry field and
the constructor leaves tokenExpiresAt unset, so a client freshly constructed
with access token A1 and refresh token R1 performs its first products call
with no refresh at all, using the original token A1 — not one refresh
followed by a call with a new token as claimed. -/
theorem fresh_client_no_proactive_refresh :
    fullCredsClient.tokenExpiresAt = none
  ∧ execute okWorld 0 10 productsRequest fullCredsClient
      = some (Except.ok "okbody", fullCredsClient,
          [Event.dispatched productsRequest "A1"]) :=
  ⟨rfl, rfl⟩

/-- C3 amended: the constructor cannot store an expiry, but for a client
state holding access token A1, refresh token R1, full OAuth credentials and
a stored expiry already in the past, a products call first performs exactly
one refresh against the token endpoint and then dispatches the products
request with the newly obtained access token. -/
theorem expired_state_refresh_then_new_token (w : World) (now : Int) (fuel : Nat)
    (c : SquarespaceClient) (t : Int) (resp : OAuthTokenResponse) (r : HttpResponse)
    (_hA : c.accessToken = "A1") (hR : c.refreshToken = some "R1")
    (h2 : truthy c.clientId = true) (h3 : truthy c.clientSecret = true)
    (he : c.tokenExpiresAt = some t) (hpast : t ≤ now)
    (hw : w.refreshResult 0 = some resp) (hd : w.dispatch 0 = DispatchResult.resp r)
    (hs1 : 200 ≤ r.status) (hs2 : r.status < 300) :
    ∃ c2, execute w now (fuel + 1) productsRequest c
      = some (Except.ok r.body, c2,
          [Event.refreshInvoked, Event.oauthPost,
           Event.dispatched productsRequest resp.access_token])
      ∧ c2.accessToken = resp.access_token := by
  have h1 : truthy c.refreshToken = true := by rw [hR]; rfl
  have hge : now ≥ t - fiveMinutesMs := by
    have : (0 : Int) < fiveMinutesMs := by decide
    omega
  exact ⟨_, execute_proactive_refresh w now fuel productsRequest c t resp r
    he hge h1 h2 h3 hw hd hs1 hs2, rfl⟩

/-- Witness for the amended C3 theorem at a concrete expired state. -/
theorem expired_state_refresh_then_new_token_witness :
    ∃ c2, execute okWorld 2000000 1 productsRequest
        { accessToken := "A1", refreshToken := some "R1", clientId := some "CID",
          clientSecret := some "SEC", retryAttempts := 3,
          tokenExpiresAt := some 1800000 }
      = some (Except.ok resp200.body, c2,
          [Event.refreshInvoked, Event.oauthPost,
           Event.dispatched productsRequest refreshedTokenResp.access_token])
      ∧ c2.accessToken = refreshedTokenResp.access_token :=
  expired_state_refresh_then_new_token okWorld 2000000 0 _ 1800000
    refreshedTokenResp resp200 rfl rfl rfl rfl rfl (by decide) rfl rfl
    (by decide) (by decide)

/-- C4: a successful refresh replaces the stored access token by the
access_token of the response, replaces the stored refresh token only when
the response contains one (otherwise leaves it unchanged), and sets the
stored expiry to exactly thirty minutes after the current time, regardless
of the expiry string the response carries. -/
theorem refresh_success_updates_credentials (w : World) (now : Int)
    (c : SquarespaceClient) (tr : Trace) (resp : OAuthTokenResponse)
    (h1 : truthy c.refreshToken = true) (h2 : truthy c.clientId = true)
    (h3 : truthy c.clientSecret = true)
    (hw : w.refreshResult (oauthCount tr) = some resp) :
    ∃ c2 tr2, refreshAccessToken w now c tr = (Except.ok c2, tr2)
      ∧ c2.accessToken = resp.access_token
      ∧ (truthy resp.refresh_token = true → c2.refreshToken = resp.refresh_token)
      ∧ (truthy resp.refresh_token = false → c2.refreshToken = c.refreshToken)
      ∧ c2.tokenExpiresAt = some (now + thirtyMinutesMs) := by
  refine ⟨_, _, refreshAccessToken_ok w now c tr resp h1 h2 h3 hw, rfl, ?_, ?_, rfl⟩
  · intro hrot; simp [hrot]
  · intro hrot; simp [hrot]

/-- Witness for C4 at a concrete refresh that does not rotate the refresh
token. -/
theorem refresh_success_updates_credentials_witness :
    ∃ c2 tr2, refreshAccessToken okWorld 5 loopClient [] = (Except.ok c2, tr2)
      ∧ c2.accessToken = refreshedTokenResp.access_token
      ∧ (truthy refreshedTokenResp.refresh_token = true →
          c2.refreshToken = refreshedTokenResp.refresh_token)
      ∧ (truthy refreshedTokenResp.refresh_token = false →
          c2.refreshToken = loopClient.refreshToken)
      ∧ c2.tokenExpiresAt = some (5 + thirtyMinutesMs) :=
  refresh_success_updates_credentials okWorld 5 loopClient [] refreshedTokenResp
    rfl rfl rfl rfl

/-- C5: a call made while the stored expiry is more than five minutes in
the future issues no refresh before dispatching, and a call made while the
stored expiry is within five minutes of now (or past) with a refresh token
present (and usable credentials) issues exactly one refresh before the
original request. -/
theorem proactive_refresh_margin :
    (∀ (w : World) (now : Int) (fuel : Nat) (req : RequestConfig)
        (c : SquarespaceClient) (t : Int) (r : HttpResponse),
      c.tokenExpiresAt = some t → now < t - fiveMinutesMs →
      w.dispatch 0 = DispatchResult.resp r → 200 ≤ r.status → r.status < 300 →
      execute w now (fuel + 1) req c
        = some (Except.ok r.body, c, [Event.dispatched req c.accessToken]))
  ∧ (∀ (w : World) (now : Int) (fuel : Nat) (req : RequestConfig)
        (c : SquarespaceClient) (t : Int) (resp : OAuthTokenResponse)
        (r : HttpResponse),
      c.tokenExpiresAt = some t → now ≥ t - fiveMinutesMs →
      truthy c.refreshToken = true → truthy c.clientId = true →
      truthy c.clientSecret = true →
      w.refreshResult 0 = some resp → w.dispatch 0 = DispatchResult.resp r →
      200 ≤ r.status → r.status < 300 →
      ∃ c2, execute w now (fuel + 1) req c
        = some (Except.ok r.body, c2,
            [Event.refreshInvoked, Event.oauthPost,
             Event.dispatched req resp.access_token])) := by
  constructor
  · intro w now fuel req c t r he hlt hd hs1 hs2
    exact execute_skip_refresh_ok w now fuel req c r
      (shouldRefresh_false_of_far c now t he hlt) hd hs1 hs2
  · intro w now fuel req c t resp r he hge h1 h2 h3 hw hd hs1 hs2
    exact ⟨_, execute_proactive_refresh w now fuel req c t resp r
      he hge h1 h2 h3 hw hd hs1 hs2⟩

/-- Witness for C5: the far-future expiry case refreshes nothing and the
near-expiry case refreshes exactly once, at concrete states. -/
theorem proactive_refresh_margin_witness :
    (execute okWorld 0 1 productsRequest loopClient
      = some (Except.ok resp200.body, loopClient,
          [Event.dispatched productsRequest loopClient.accessToken]))
  ∧ ∃ c2, execute okWorld 1700000 1 productsRequest loopClient
      = some (Except.ok resp200.body, c2,
          [Event.refreshInvoked, Event.oauthPost,
           Event.dispatched productsRequest refreshedTokenResp.access_token]) :=
  ⟨proactive_refresh_margin.1 okWorld 0 0 productsRequest loopClient 1800000
      resp200 rfl (by decide) rfl (by decide) (by decide),
   proactive_refresh_margin.2 okWorld 1700000 0 productsRequest loopClient 1800000
      refreshedTokenResp resp200 rfl (by decide) rfl rfl rfl rfl rfl
      (by decide) (by decide)⟩

/-- C6: the refresh operation requires refresh token, client id and client
secret all present; with any of them missing it fails immediately with the
configuration error and records no OAuth endpoint contact, and inside a
call this failure surfaces at once as the normalized error, with no
dispatch, no retry and no second refresh. -/
theorem refresh_missing_credentials_fails_fast :
    (∀ (w : World) (now : Int) (c : SquarespaceClient) (tr : Trace),
      (truthy c.refreshToken = false ∨ truthy c.clientId = false
        ∨ truthy c.clientSecret = false) →
      refreshAccessToken w now c tr
        = (Except.error "Missing refresh token or OAuth credentials",
            tr ++ [Event.refreshInvoked]))
  ∧ (∀ (w : World) (now : Int) (fuel : Nat) (req : RequestConfig)
        (c : SquarespaceClient) (t : Int),
      c.tokenExpiresAt = some t → now ≥ t - fiveMinutesMs →
      truthy c.refreshToken = true → truthy c.clientId = false →
      execute w now (fuel + 1) req c
        = some (Except.error (ClientError.api
            { status := 500, errType := "UNKNOWN_ERROR",
              message := "Missing refresh token or OAuth credentials",
              errors := none }), c, [Event.refreshInvoked])) := by
  constructor
  · exact refreshAccessToken_missing
  · intro w now fuel req c t he hge h1 h2
    have hsr := shouldRefresh_true_of_near c now t he hge h1
    have hmiss := refreshAccessToken_missing w now c [] (Or.inr (Or.inl h2))
    have hcr : clientRequest w now (fuel + 1) req c []
        = some (Except.error (ClientError.api
            { status := 500, errType := "UNKNOWN_ERROR",
              message := "Missing refresh token or OAuth credentials",
              errors := none }), c, [Event.refreshInvoked]) := by
      rw [clientRequest]
      simp only [hsr, if_true, hmiss, List.nil_append]
      rfl
    rw [execute, makeRequest, hcr]
    rfl

/-- Witness for C6 at a state with a refresh token but no client id. -/
theorem refresh_missing_credentials_fails_fast_witness :
    (refreshAccessToken okWorld 0
        { accessToken := "A1", refreshToken := some "R1", clientId := none,
          clientSecret := none, retryAttempts := 3, tokenExpiresAt := some 0 } []
      = (Except.error "Missing refresh token or OAuth credentials",
          [Event.refreshInvoked]))
  ∧ (execute okWorld 0 1 productsRequest
        { accessToken := "A1", refreshToken := some "R1", clientId := none,
          clientSecret := none, retryAttempts := 3, tokenExpiresAt := some 0 }
      = some (Except.error (ClientError.api
          { status := 500, errType := "UNKNOWN_ERROR",
            message := "Missing refresh token or OAuth credentials",
            errors := none }),
          { accessToken := "A1", refreshToken := some "R1", clientId := none,
            clientSecret := none, retryAttempts := 3, tokenExpiresAt := some 0 },
          [Event.refreshInvoked])) :=
  ⟨refresh_missing_credentials_fails_fast.1 okWorld 0 _ [] (Or.inr (Or.inl rfl)),
   refresh_missing_credentials_fails_fast.2 okWorld 0 0 productsRequest _ 0
     rfl (by decide) rfl rfl⟩

/-- C7: a transport failure with no response is normalized with synthesized
status 500, type UNKNOWN_ERROR and the underlying message, and every error
a call surfaces is an already-normalized SquarespaceAPIError of that
status, type, message, field-errors shape. -/
theorem errors_normalized :
    (∀ msg, msg ≠ "" → handleError none msg
      = { status := 500, errType := "UNKNOWN_ERROR", message := msg, errors := none })
  ∧ (∀ (w : World) (now : Int) (fuel : Nat) (req : RequestConfig)
        (c : SquarespaceClient) (e : ClientError) (c2 : SquarespaceClient)
        (tr2 : Trace),
      execute w now fuel req c = some (Except.error e, c2, tr2) →
      ∃ a, e = ClientError.api a) := by
  constructor
  · intro msg hm
    simp [handleError, orFalsy, hm]
  · intro w now fuel req c e c2 tr2 h
    exact makeRequest_errors_api fuel w now req 0 c [] e c2 tr2 h

/-- Witness for C7: a concrete transport-style message and a concrete
failing run. -/
theorem errors_normalized_witness :
    (handleError none "getaddrinfo ENOTFOUND"
      = { status := 500, errType := "UNKNOWN_ERROR",
          message := "getaddrinfo ENOTFOUND", errors := none })
  ∧ ∃ a, ClientError.api
      { status := 429, errType := "UNKNOWN_ERROR",
        message := "Request failed with status code 429", errors := none }
      = ClientError.api a :=
  ⟨errors_normalized.1 "getaddrinfo ENOTFOUND" (by decide),
   errors_normalized.2 rateLimitedWorld 0 10 productsRequest tokenOnlyClient
     (ClientError.api
       { status := 429, errType := "UNKNOWN_ERROR",
         message := "Request failed with status code 429", errors := none })
     tokenOnlyClient [Event.dispatched productsRequest "A"] rfl⟩

/-- C8: a response with a 4xx status other than 401 and 429 makes execute
return at once with the normalized error carrying that status, after a
single dispatch, with no retry wait and no refresh event. -/
theorem client_error_4xx_immediate (w : World) (now : Int) (fuel : Nat)
    (req : RequestConfig) (c : SquarespaceClient) (r : HttpResponse)
    (hsr : shouldRefreshToken c now = false)
    (hd : w.dispatch 0 = DispatchResult.resp r)
    (hs1 : 400 ≤ r.status) (hs2 : r.status < 500)
    (h401 : r.status ≠ 401) (_h429 : r.status ≠ 429) :
    execute w now (fuel + 1) req c
      = some (Except.error (ClientError.api (handleError (some r)
            ("Request failed with status code " ++ toString r.status))),
          c, [Event.dispatched req c.accessToken])
      ∧ (handleError (some r)
          ("Request failed with status code " ++ toString r.status)).status
        = r.status := by
  constructor
  · exact execute_skip_refresh_err w now fuel req c r hsr hd (by omega) h401
  · simp only [handleError]
    rw [if_neg (by omega)]

/-- Witness for C8 at a concrete 404 response. -/
theorem client_error_4xx_immediate_witness :
    execute
        { dispatch := fun _ => DispatchResult.resp
            { status := 404, dataType := some "CRUD_OPERATION_ERROR",
              dataMessage := some "Page not found", dataErrors := none, body := "" }
          refreshResult := fun _ => none } 0 1 productsRequest tokenOnlyClient
      = some (Except.error (ClientError.api (handleError (some
            { status := 404, dataType := some "CRUD_OPERATION_ERROR",
              dataMessage := some "Page not found", dataErrors := none, body := "" })
            ("Request failed with status code " ++ toString 404))),
          tokenOnlyClient, [Event.dispatched productsRequest "A"])
      ∧ (handleError (some
            { status := 404, dataType := some "CRUD_OPERATION_ERROR",
              dataMessage := some "Page not found", dataErrors := none, body := "" })
            ("Request failed with status code " ++ toString 404)).status = 404 :=
  client_error_4xx_immediate _ 0 0 productsRequest tokenOnlyClient _
    rfl rfl (by decide) (by decide) (by decide) (by decide)

/-- C9: the server bootstrap fails fast with a configuration error when no
access token is supplied (the variable absent or empty), and otherwise
constructs the client with the supplied token, so a missing token can never
surface later at request time. -/
theorem bootstrap_requires_access_token :
    (∀ env : Env,
      env.SQUARESPACE_ACCESS_TOKEN = none ∨ env.SQUARESPACE_ACCESS_TOKEN = some "" →
      serverBootstrap env
        = Except.error "Error: SQUARESPACE_ACCESS_TOKEN environment variable is required")
  ∧ (∀ (env : Env) (tok : String),
      env.SQUARESPACE_ACCESS_TOKEN = some tok → tok ≠ "" →
      serverBootstrap env = Except.ok (SquarespaceClient.construct
        { accessToken := tok, refreshToken := env.SQUARESPACE_REFRESH_TOKEN,
          clientId := env.SQUARESPACE_CLIENT_ID,
          clientSecret := env.SQUARESPACE_CLIENT_SECRET,
          timeout := some 30000, retryAttempts := some 3 })) := by
  constructor
  · intro env h
    rcases h with h | h <;> simp [serverBootstrap, truthy, h]
  · intro env tok h hne
    simp [serverBootstrap, truthy, h, hne]

/-- Witness for C9: a tokenless environment is rejected and a token-bearing
environment yields a client. -/
theorem bootstrap_requires_access_token_witness :
    (serverBootstrap
        { SQUARESPACE_ACCESS_TOKEN := none, SQUARESPACE_REFRESH_TOKEN := none,
          SQUARESPACE_CLIENT_ID := none, SQUARESPACE_CLIENT_SECRET := none }
      = Except.error "Error: SQUARESPACE_ACCESS_TOKEN environment variable is required")
  ∧ (serverBootstrap
        { SQUARESPACE_ACCESS_TOKEN := some "T", SQUARESPACE_REFRESH_TOKEN := none,
          SQUARESPACE_CLIENT_ID := none, SQUARESPACE_CLIENT_SECRET := none }
      = Except.ok (SquarespaceClient.construct
          { accessToken := "T", refreshToken := none, clientId := none,
            clientSecret := none, timeout := some 30000, retryAttempts := some 3 })) :=
  ⟨bootstrap_requires_access_token.1 _ (Or.inl rfl),
   bootstrap_requires_access_token.2 _ "T" rfl (by decide)⟩

end SquarespaceMCP
